import Mathlib

set_option maxRecDepth 40000

/-!
Shallow embedding of the MFA flow controller (`app.py`): the credential
store, the Flask session, and every route handler that reads or writes
session or store state.  External collaborators (Twilio Verify, the
database commit) are modelled as oracle parameters: a `TwilioResult`
stands for the outcome of one gateway call, and a `Bool` stands for
whether a `db.session.commit()` succeeds.
-/

namespace MfaApp

/-- Python truthiness of an optional text column (`None` and `""` are falsy). -/
def pyTruthy : Option String → Bool
  | none => false
  | some s => s != ""

/-- Python `str.strip()`: remove leading and trailing whitespace. -/
def pyStrip (s : String) : String :=
  String.mk (((s.data.dropWhile Char.isWhitespace).reverse.dropWhile
      Char.isWhitespace).reverse)

/-- Python `s[1:]`. -/
def pyDrop1 (s : String) : String := String.mk (s.data.drop 1)

/-- Python check that `s` starts with a plus sign. -/
def pyStartsWithPlus (s : String) : Bool :=
  match s.data with
  | [] => false
  | c :: _ => c == '+'

/-- Python `str.isdigit()`: non-empty and every character a digit. -/
def pyIsdigit (s : String) : Bool := !s.data.isEmpty && s.data.all Char.isDigit

/-- A row of the `User` table: username, password, email, phone,
and the nullable `face_data` text column. -/
structure Account where
  username : String
  password : String
  email : String
  phone : String
  face_data : Option String
  deriving Repr, DecidableEq

/-- The candidate account fields held under the `registration_data`
session key between registration step 1 and step 2. -/
structure RegData where
  username : String
  password : String
  email : String
  phone : String
  deriving Repr, DecidableEq

/-- The Flask session keys the application reads or writes.
`logged_in = false` models the key being absent. -/
structure Session where
  logged_in : Bool
  username : Option String
  login_method : Option String
  otp_login_pending : Option String
  registration_data : Option RegData
  deriving Repr, DecidableEq

/-- A fresh session with no keys set. -/
def Session.empty : Session :=
  { logged_in := false, username := none, login_method := none,
    otp_login_pending := none, registration_data := none }

/-- The routes a handler can redirect to. -/
inductive Route where
  | home
  | login
  | login_factor_choice
  | login_otp_page
  | login_otp_verify
  | face_scan
  | forgot_password
  | reset_password
  | dashboard
  deriving Repr, DecidableEq

/-- What a handler returns to the client: a redirect or a rendered
status page (message plus the `is_error` flag). -/
inductive Outcome where
  | redirect (r : Route)
  | page (msg : String) (is_error : Bool)
  deriving Repr, DecidableEq

/-- Outcome of one Twilio Verify call: `ok s` is a normal return whose
`.status` field is `s`; `exn e` is a raised exception whose class name
is `e`. -/
inductive TwilioResult where
  | ok (status : String)
  | exn (e : String)
  deriving Repr, DecidableEq

/-- The mock biometric matcher `mock_verify_face(reference_data,
captured_data)`: true when both datasets are truthy and the captured
data is longer than 100 characters. -/
def mock_verify_face (reference_data : Option String)
    (captured_data : String) : Bool :=
  if pyTruthy reference_data ∧ captured_data ≠ "" ∧ captured_data.length > 100
  then true else false

/-- Handler for POST /register: validate, then stash the fields under
the `registration_data` session key and redirect to face-scan setup. -/
def register_post (store : List Account) (sess : Session)
    (username password email phone : String) : Session × Outcome :=
  let username := pyStrip username
  let email := pyStrip email
  let phone := pyStrip phone
  match store.find? (fun u => u.username == username) with
  | some _ =>
      (sess, .page ("Username \"" ++ username ++ "\" already exists!") true)
  | none =>
      if ¬ pyStartsWithPlus phone ∨ phone.length < 5 ∨
          ¬ pyIsdigit (pyDrop1 phone) then
        (sess, .page
          "Phone number must be a valid E.164 format (e.g., +911234567890)."
          true)
      else
        ({ sess with registration_data := some ⟨username, password, email, phone⟩ },
         .redirect .face_scan)

/-- Overwrite the `face_data` of the first account with this username
(the row returned by `User.query.filter_by(username=...).first()`). -/
def set_face_first : List Account → String → String → List Account
  | [], _, _ => []
  | u :: rest, username, fd =>
      if u.username == username then { u with face_data := some fd } :: rest
      else u :: set_face_first rest username fd

/-- Handler for POST /save-reference-face: size-check the capture, then either
finalize the pending registration (insert the full account, commit),
fall back to a face-data update of an existing account, or redirect to
the login flow.  `commit_ok` and `update_ok` model whether the two
`db.session.commit()` calls succeed. -/
def save_reference_face (store : List Account) (sess : Session)
    (username face_data : String) (commit_ok update_ok : Bool) :
    List Account × Session × Outcome :=
  let username := pyStrip username
  if face_data = "" ∨ face_data.length < 100 then
    (store, sess, .redirect .face_scan)
  else
    let fallback : List Account × Session × Outcome :=
      match store.find? (fun u => u.username == username) with
      | some _ =>
          if update_ok then
            (set_face_first store username face_data, sess,
             .page ("Face data updated for " ++ username ++ ".") false)
          else
            (store, sess, .page "Error updating face data" true)
      | none => (store, sess, .redirect .login)
    match sess.registration_data with
    | some rd =>
        if rd.username == username then
          if commit_ok then
            (store ++ [{ username := rd.username, password := rd.password,
                         email := rd.email, phone := rd.phone,
                         face_data := some face_data }],
             { sess with registration_data := none },
             .page ("Registration successfully completed for " ++ username
                    ++ ". You can now log in.") false)
          else
            (store, sess,
             .page "CRITICAL ERROR: Failed to save user to database" true)
        else fallback
    | none => fallback

/-- Handler for POST /login-password-verify: look up by (username, password); on a
match establish the session with factor Password. -/
def login_password_verify (store : List Account) (sess : Session)
    (username password : String) : Session × Outcome :=
  let username := pyStrip username
  match store.find? (fun u => u.username == username && u.password == password)
  with
  | some user =>
      ({ sess with logged_in := true, username := some user.username,
                   login_method := some "Password" },
       .redirect .dashboard)
  | none => (sess, .page "Invalid username or password." true)

/-- Handler for POST /login-otp-send: look up by (username, phone); on a match
dispatch an OTP to the stored phone.  The middle component records the
address the Twilio call targeted (`none` when no call is made). -/
def login_otp_send (store : List Account) (sess : Session)
    (username phone : String) (gw : TwilioResult) :
    Session × Option String × Outcome :=
  let username := pyStrip username
  let phone := pyStrip phone
  match store.find? (fun u => u.username == username && u.phone == phone) with
  | none =>
      (sess, none,
       .page "User not found or phone number does not match registered account."
         true)
  | some user =>
      match gw with
      | .ok s =>
          if s = "pending" then
            ({ sess with otp_login_pending := some username }, some user.phone,
             .redirect .login_otp_verify)
          else
            (sess, some user.phone,
             .page ("SMS Delivery Failed. Twilio status: " ++ s) true)
      | .exn e =>
          (sess, some user.phone,
           .page ("SMS Delivery Failed: Error connecting to Twilio. Status: "
                  ++ e) true)

/-- Handler for POST /login-otp-verify: require the pending challenge, then check
the code with Twilio; approved establishes the session with factor OTP,
anything else redirects back to the verify page. -/
def login_otp_verify_post (store : List Account) (sess : Session)
    (username otp_code : String) (gw : TwilioResult) : Session × Outcome :=
  let username := pyStrip username
  match store.find? (fun u => u.username == username) with
  | none => (sess, .page "Session error. Please restart OTP login." true)
  | some _ =>
      if sess.otp_login_pending ≠ some username then
        (sess, .page "Session error. Please restart OTP login." true)
      else
        match gw with
        | .ok s =>
            if s = "approved" then
              ({ sess with logged_in := true, username := some username,
                           login_method := some "OTP",
                           otp_login_pending := none },
               .redirect .dashboard)
            else
              (sess, .redirect .login_otp_verify)
        | .exn e =>
            (sess,
             .page ("Verification Failed: Error connecting to Twilio. Status: "
                    ++ e) true)

/-- Handler for POST /login-face-verify: the account must exist and have a truthy
`face_data`; then the mock matcher decides. -/
def login_face_verify (store : List Account) (sess : Session)
    (username captured_face_data : String) : Session × Outcome :=
  let username := pyStrip username
  match store.find? (fun u => u.username == username) with
  | none => (sess, .page "User not found." true)
  | some user =>
      if ¬ pyTruthy user.face_data then
        (sess,
         .page "Face ID not set up for this user. Please use another factor."
           true)
      else if mock_verify_face user.face_data captured_face_data then
        ({ sess with logged_in := true, username := some user.username,
                     login_method := some "Face Scan" },
         .redirect .dashboard)
      else
        (sess, .page "Face scan failed! Please try capturing a clearer image."
          true)

/-- Handler for GET /dashboard: requires a logged-in session; a stale username
clears the login flag. -/
def dashboard (store : List Account) (sess : Session) : Session × Outcome :=
  if sess.logged_in then
    match sess.username with
    | none => (sess, .page "Internal Server Error" true)
    | some uname =>
        match store.find? (fun u => u.username == uname) with
        | none =>
            ({ sess with logged_in := false, username := none },
             .page "Authentication error. Please log in again." true)
        | some user => (sess, .page ("Dashboard for " ++ user.username) false)
  else (sess, .redirect .login)

/-- Handler for GET /logout: pops every authentication and flow key. -/
def logout (_sess : Session) : Session × Outcome :=
  (Session.empty, .page "You have been successfully logged out." false)

/-- Map a `next_route` request argument to the route `url_for` resolves. -/
def route_for_name (s : String) : Route :=
  if s = "reset_password_page" then .reset_password
  else if s = "login_otp_verify_page" then .login_otp_verify
  else .login

/-- Handler for GET /resend-otp: re-dispatch an OTP; touches neither session nor
store. -/
def resend_otp (store : List Account) (username next_route : String)
    (gw : TwilioResult) : Outcome :=
  let username := pyStrip username
  match store.find? (fun u => u.username == username) with
  | none =>
      if next_route = "reset_password_page" then .redirect .forgot_password
      else .redirect .login_otp_page
  | some _ =>
      match gw with
      | .ok s =>
          if s = "pending" then .redirect (route_for_name next_route)
          else .page ("SMS Delivery Failed: OTP initiation failed. Twilio status: "
                      ++ s) true
      | .exn e =>
          .page ("SMS Delivery Failed: Error connecting to Twilio. Status: "
                 ++ e ++ ". Please verify credentials.") true

/-- Handler for POST /forgot-password: validate the phone, look up by
(username, phone), dispatch a reset OTP; touches neither session nor
store. -/
def forgot_password_post (store : List Account) (username phone : String)
    (gw : TwilioResult) : Outcome :=
  let username := pyStrip username
  let phone := pyStrip phone
  if ¬ pyStartsWithPlus phone ∨ phone.length < 5 ∨
      ¬ pyIsdigit (pyDrop1 phone) then
    .page "Phone number must be a valid E.164 format." true
  else
    match store.find? (fun u => u.username == username && u.phone == phone) with
    | none =>
        .page "User not found or phone number does not match registered account."
          true
    | some _ =>
        match gw with
        | .ok s =>
            if s = "pending" then .redirect .reset_password
            else .page ("SMS Delivery Failed: OTP initiation failed. Twilio status: "
                        ++ s) true
        | .exn e =>
            .page ("SMS Delivery Failed: Error connecting to Twilio. Status: "
                   ++ e ++ ". Please verify credentials.") true

/-- Overwrite the `password` of the first account with this username. -/
def set_password_first : List Account → String → String → List Account
  | [], _, _ => []
  | u :: rest, username, p =>
      if u.username == username then { u with password := p } :: rest
      else u :: set_password_first rest username p

/-- Handler for POST /reset-password: check the code with Twilio; approved
overwrites the password and commits, anything else redirects back to
the same reset page.  Never touches the session. -/
def reset_password_post (store : List Account)
    (username otp_code new_password : String) (gw : TwilioResult) :
    List Account × Outcome :=
  let username := pyStrip username
  match store.find? (fun u => u.username == username) with
  | none =>
      (store, .page ("User \"" ++ username ++ "\" not found.") true)
  | some _ =>
      match gw with
      | .ok s =>
          if s = "approved" then
            (set_password_first store username new_password,
             .page ("Password reset successful for user \"" ++ username
                    ++ "\". You can now log in.") false)
          else
            (store, .redirect .reset_password)
      | .exn e =>
          (store,
           .page ("Verification Failed: Error connecting to Twilio. Status: "
                  ++ e) true)

/-- One inbound request, with its form inputs and the oracle outcomes
of any collaborator calls it makes. -/
inductive Op where
  | opRegister (username password email phone : String)
  | opSaveReferenceFace (username face_data : String) (commit_ok update_ok : Bool)
  | opPasswordVerify (username password : String)
  | opOtpSend (username phone : String) (gw : TwilioResult)
  | opOtpVerify (username otp_code : String) (gw : TwilioResult)
  | opFaceVerify (username captured : String)
  | opDashboard
  | opLogout
  | opResendOtp (username next_route : String) (gw : TwilioResult)
  | opForgotPassword (username phone : String) (gw : TwilioResult)
  | opResetPassword (username otp_code new_password : String) (gw : TwilioResult)
  deriving Repr, DecidableEq

/-- The whole application state: the credential store and the client
session. -/
structure AppState where
  store : List Account
  sess : Session
  deriving Repr, DecidableEq

/-- The transition function: dispatch one request to its handler. -/
def step (st : AppState) (op : Op) : AppState × Outcome :=
  match op with
  | .opRegister u p e ph =>
      let r := register_post st.store st.sess u p e ph
      (⟨st.store, r.1⟩, r.2)
  | .opSaveReferenceFace u fd c upd =>
      let r := save_reference_face st.store st.sess u fd c upd
      (⟨r.1, r.2.1⟩, r.2.2)
  | .opPasswordVerify u p =>
      let r := login_password_verify st.store st.sess u p
      (⟨st.store, r.1⟩, r.2)
  | .opOtpSend u ph gw =>
      let r := login_otp_send st.store st.sess u ph gw
      (⟨st.store, r.1⟩, r.2.2)
  | .opOtpVerify u c gw =>
      let r := login_otp_verify_post st.store st.sess u c gw
      (⟨st.store, r.1⟩, r.2)
  | .opFaceVerify u cap =>
      let r := login_face_verify st.store st.sess u cap
      (⟨st.store, r.1⟩, r.2)
  | .opDashboard =>
      let r := dashboard st.store st.sess
      (⟨st.store, r.1⟩, r.2)
  | .opLogout =>
      let r := logout st.sess
      (⟨st.store, r.1⟩, r.2)
  | .opResendOtp u nr gw =>
      (st, resend_otp st.store u nr gw)
  | .opForgotPassword u ph gw =>
      (st, forgot_password_post st.store u ph gw)
  | .opResetPassword u c np gw =>
      let r := reset_password_post st.store u c np gw
      (⟨r.1, st.sess⟩, r.2)

/-- A sample account used by concrete witnesses. -/
def alice : Account := ⟨"alice", "pw1", "a@x.com", "+15551234567", some "REFDATA"⟩

/-- An account with a stored biometric reference, used by concrete
witnesses and counterexamples. -/
def bob : Account := ⟨"bob", "pw2", "b@x.com", "+911234567890", some "OLDREF"⟩

/-- A captured sample longer than 100 characters. -/
def bigSample : String := String.mk (List.replicate 150 'z')

/-- A session holding an outstanding OTP login challenge for alice. -/
def sessPending : Session :=
  { Session.empty with otp_login_pending := some "alice" }

/-- Step-1 registration fields for carol. -/
def rdCarol : RegData := ⟨"carol", "p1", "c@x.com", "+15550001111"⟩

/-- A session holding the pending registration for carol. -/
def sessRegCarol : Session :=
  { Session.empty with registration_data := some rdCarol }

/-!  ## Theorems -/

/-- C3: for every username (existing or not) and every password that is
not the stored secret of that username, password verification returns
the one generic rejection page and leaves the session untouched, so no
session is established and the outcome does not distinguish an unknown
username from a wrong secret. -/
theorem password_verify_wrong_secret_rejects (store : List Account)
    (sess : Session) (username password : String)
    (h : ∀ u ∈ store, u.username = pyStrip username → u.password ≠ password) :
    login_password_verify store sess username password =
      (sess, .page "Invalid username or password." true) := by
  have hf : store.find?
      (fun u => u.username == pyStrip username && u.password == password) =
      none := by
    rw [List.find?_eq_none]
    intro u hu
    simp only [Bool.and_eq_true, beq_iff_eq, not_and]
    exact fun h1 => h u hu h1
  simp [login_password_verify, hf]

/-- Concrete witness for `password_verify_wrong_secret_rejects`: the
store holds only alice with secret pw1. -/
theorem password_verify_wrong_secret_rejects_witness :
    login_password_verify [alice] Session.empty "alice" "wrong" =
      (Session.empty, .page "Invalid username or password." true) :=
  password_verify_wrong_secret_rejects [alice] Session.empty "alice" "wrong"
    (by decide)

/-- C2: the mock biometric matcher returns true exactly when the stored
reference is truthy (present and non-empty), the captured sample is
non-empty and the captured sample is longer than 100 characters; as a
consequence, for any account whose lookup succeeds and whose stored
reference is truthy, face login with any sample longer than 100
characters establishes an authenticated session with factor Face Scan,
whatever the sample content. -/
theorem mock_verify_face_spec_and_bypass :
    (∀ (ref : String) (cap : String),
       mock_verify_face (some ref) cap = true ↔
         (ref ≠ "" ∧ cap ≠ "" ∧ 100 < cap.length)) ∧
    (∀ cap, mock_verify_face none cap = false) ∧
    (∀ (store : List Account) (sess : Session) (username cap : String)
       (acct : Account),
       store.find? (fun u => u.username == pyStrip username) = some acct →
       pyTruthy acct.face_data = true →
       100 < cap.length →
       login_face_verify store sess username cap =
         ({ sess with logged_in := true, username := some acct.username,
                      login_method := some "Face Scan" },
          .redirect .dashboard)) := by
  refine ⟨?_, ?_, ?_⟩
  · intro ref cap
    simp [mock_verify_face, pyTruthy]
  · intro cap
    simp [mock_verify_face, pyTruthy]
  · intro store sess username cap acct hfind htruthy hlen
    have hcapne : cap ≠ "" := by
      intro hc
      rw [hc] at hlen
      simp at hlen
    have hmock : mock_verify_face acct.face_data cap = true := by
      simp [mock_verify_face, htruthy, hcapne, hlen]
    simp [login_face_verify, hfind, htruthy, hmock]

/-- Concrete witness for `mock_verify_face_spec_and_bypass`: bob has a
stored reference, and a 150-character sample of repeated z logs in. -/
theorem mock_verify_face_spec_and_bypass_witness :
    login_face_verify [bob] Session.empty "bob" bigSample =
      ({ Session.empty with logged_in := true, username := some bob.username,
                            login_method := some "Face Scan" },
       .redirect .dashboard) :=
  mock_verify_face_spec_and_bypass.2.2 [bob] Session.empty "bob" bigSample bob
    (by decide) (by decide) (by decide)

/-- C8: face login against a username with no account, or against an
account whose stored reference is not truthy, is rejected with the
corresponding error page and the session is untouched, for every
captured sample (including ones that would pass the size check). -/
theorem biometric_not_enrolled_rejects (store : List Account)
    (sess : Session) (username cap : String) :
    (store.find? (fun u => u.username == pyStrip username) = none →
       login_face_verify store sess username cap =
         (sess, .page "User not found." true)) ∧
    (∀ acct, store.find? (fun u => u.username == pyStrip username) = some acct →
       pyTruthy acct.face_data = false →
       login_face_verify store sess username cap =
         (sess,
          .page "Face ID not set up for this user. Please use another factor."
            true)) := by
  constructor
  · intro hfind
    simp [login_face_verify, hfind]
  · intro acct hfind hfalsy
    simp [login_face_verify, hfind, hfalsy]

/-- Concrete witness for `biometric_not_enrolled_rejects`: an empty
store rejects carol with a large sample. -/
theorem biometric_not_enrolled_rejects_witness :
    login_face_verify [] Session.empty "carol" bigSample =
      (Session.empty, .page "User not found." true) :=
  (biometric_not_enrolled_rejects [] Session.empty "carol" bigSample).1
    (by decide)

/-- C4: when no account matches both username and phone, OTP initiate
rejects and makes no gateway call; when an account matches, the
gateway call targets the stored phone of that account, and when its
status is pending the challenge for that username is recorded in the
session. -/
theorem otp_initiate_dispatch_rules (store : List Account) (sess : Session)
    (username phone : String) (gw : TwilioResult) :
    (store.find?
        (fun u => u.username == pyStrip username && u.phone == pyStrip phone)
        = none →
       login_otp_send store sess username phone gw =
         (sess, none,
          .page "User not found or phone number does not match registered account."
            true)) ∧
    (∀ acct, store.find?
        (fun u => u.username == pyStrip username && u.phone == pyStrip phone)
        = some acct →
       (login_otp_send store sess username phone gw).2.1 = some acct.phone ∧
       (gw = .ok "pending" →
          login_otp_send store sess username phone gw =
            ({ sess with otp_login_pending := some (pyStrip username) },
             some acct.phone, .redirect .login_otp_verify))) := by
  constructor
  · intro hfind
    simp [login_otp_send, hfind]
  · intro acct hfind
    constructor
    · cases gw with
      | ok s =>
          by_cases hs : s = "pending" <;> simp [login_otp_send, hfind, hs]
      | exn e => simp [login_otp_send, hfind]
    · rintro rfl
      simp [login_otp_send, hfind]

/-- Concrete witness for `otp_initiate_dispatch_rules`: alice initiates
with her stored phone and a pending dispatch. -/
theorem otp_initiate_dispatch_rules_witness :
    login_otp_send [alice] Session.empty "alice" "+15551234567" (.ok "pending") =
      ({ Session.empty with otp_login_pending := some (pyStrip "alice") },
       some alice.phone, .redirect .login_otp_verify) :=
  ((otp_initiate_dispatch_rules [alice] Session.empty "alice" "+15551234567"
      (.ok "pending")).2 alice (by decide)).2 rfl

/-- C5: with an account present and the challenge for this username
bound to the session, an OTP complete whose check verdict is not
approved redirects back to the verify page with the session (hence the
pending challenge) unchanged, and a subsequent complete on the same
session whose verdict is approved establishes the session with factor
OTP and clears the pending challenge. -/
theorem otp_denied_preserves_challenge (store : List Account) (sess : Session)
    (username code1 code2 s : String) (acct : Account)
    (hfind : store.find? (fun u => u.username == pyStrip username) = some acct)
    (hpend : sess.otp_login_pending = some (pyStrip username))
    (hs : s ≠ "approved") :
    login_otp_verify_post store sess username code1 (.ok s) =
      (sess, .redirect .login_otp_verify) ∧
    login_otp_verify_post store sess username code2 (.ok "approved") =
      ({ sess with logged_in := true, username := some (pyStrip username),
                   login_method := some "OTP", otp_login_pending := none },
       .redirect .dashboard) := by
  constructor
  · simp [login_otp_verify_post, hfind, hpend, hs]
  · simp [login_otp_verify_post, hfind, hpend]

/-- Concrete witness for `otp_denied_preserves_challenge`: alice submits
a wrong code (denied) and then the right one (approved). -/
theorem otp_denied_preserves_challenge_witness :
    login_otp_verify_post [alice] sessPending "alice" "000000" (.ok "denied") =
      (sessPending, .redirect .login_otp_verify) ∧
    login_otp_verify_post [alice] sessPending "alice" "123456" (.ok "approved") =
      ({ sessPending with logged_in := true,
                          username := some (pyStrip "alice"),
                          login_method := some "OTP",
                          otp_login_pending := none },
       .redirect .dashboard) :=
  otp_denied_preserves_challenge [alice] sessPending "alice" "000000" "123456"
    "denied" alice (by decide) (by decide) (by decide)

/-- C10: registration step 1 rejects a taken username with the
already-exists page; rejects a malformed phone with an error page while
leaving the session untouched; and when the username is fresh and the
phone well-formed it stores the submitted fields as the pending
registration and redirects to the enrollment step. -/
theorem register_validation_and_pending (store : List Account)
    (sess : Session) (username password email phone : String) :
    ((store.find? (fun u => u.username == pyStrip username)).isSome →
       register_post store sess username password email phone =
         (sess,
          .page ("Username \"" ++ pyStrip username ++ "\" already exists!")
            true)) ∧
    ((¬ pyStartsWithPlus (pyStrip phone) ∨ (pyStrip phone).length < 5 ∨
        ¬ pyIsdigit (pyDrop1 (pyStrip phone))) →
       (register_post store sess username password email phone).1 = sess ∧
       ∃ msg,
         (register_post store sess username password email phone).2 =
           .page msg true) ∧
    (store.find? (fun u => u.username == pyStrip username) = none →
     pyStartsWithPlus (pyStrip phone) = true →
     ¬ (pyStrip phone).length < 5 →
     pyIsdigit (pyDrop1 (pyStrip phone)) = true →
       register_post store sess username password email phone =
         ({ sess with registration_data := some ⟨pyStrip username, password, pyStrip email, pyStrip phone⟩ },
          .redirect .face_scan)) := by
  refine ⟨?_, ?_, ?_⟩
  · intro hsome
    obtain ⟨acct, hfind⟩ := Option.isSome_iff_exists.mp hsome
    simp [register_post, hfind]
  · intro hbad
    cases hfind : store.find? (fun u => u.username == pyStrip username) with
    | some acct =>
        exact ⟨by simp [register_post, hfind],
               "Username \"" ++ pyStrip username ++ "\" already exists!",
               by simp [register_post, hfind]⟩
    | none =>
        refine ⟨?_,
          "Phone number must be a valid E.164 format (e.g., +911234567890).",
          ?_⟩ <;>
        · simp only [register_post, hfind]
          split
          · rfl
          · next hcond => exact absurd hbad hcond
  · intro hfind h1 h2 h3
    simp [register_post, hfind, h1, h2, h3]

/-- Concrete witness for `register_validation_and_pending`: dave
registers against an empty store with a well-formed phone. -/
theorem register_validation_and_pending_witness :
    register_post [] Session.empty "dave" "pw" "d@x.com" "+911234567890" =
      ({ Session.empty with registration_data := some ⟨pyStrip "dave", "pw", pyStrip "d@x.com", pyStrip "+911234567890"⟩ },
       .redirect .face_scan) :=
  (register_validation_and_pending [] Session.empty "dave" "pw" "d@x.com"
      "+911234567890").2.2 (by decide) (by decide) (by decide) (by decide)

/-- C7: when the pending registration matches and the capture passes
the size check but the database commit fails, step 2 surfaces the fatal
storage error, leaves the credential store unchanged (so no partial
account is persisted) and keeps the pending registration in the
session. -/
theorem enroll_persist_failure_safe (store : List Account) (sess : Session)
    (username face_data : String) (upd : Bool) (rd : RegData)
    (hrd : sess.registration_data = some rd)
    (hname : rd.username = pyStrip username)
    (hlen : 100 ≤ face_data.length) :
    save_reference_face store sess username face_data false upd =
      (store, sess,
       .page "CRITICAL ERROR: Failed to save user to database" true) := by
  have hne : face_data ≠ "" := by
    intro h
    rw [h] at hlen
    exact absurd hlen (by decide)
  have hnotlt : ¬ face_data.length < 100 := by omega
  simp [save_reference_face, hne, hnotlt, hrd, hname]

/-- Concrete witness for `enroll_persist_failure_safe`: carol completed
step 1, the capture is large enough, the commit fails. -/
theorem enroll_persist_failure_safe_witness :
    save_reference_face [] sessRegCarol "carol" bigSample false true =
      ([], sessRegCarol,
       .page "CRITICAL ERROR: Failed to save user to database" true) :=
  enroll_persist_failure_safe [] sessRegCarol "carol" bigSample true rdCarol
    (by decide) (by decide) (by decide)

/-- C6 (counterexample): with no pending registration in the session,
invoking step 2 for an existing account with a large sample does change
the credential store — the stored face reference of bob is overwritten — so
step 2 without step 1 does not always leave the store unchanged. -/
theorem enroll_without_step1_modifies_existing :
    (save_reference_face [bob] Session.empty "bob" bigSample true true).1 ≠
      [bob] ∧
    (save_reference_face [bob] Session.empty "bob" bigSample true true).1 =
      [{ bob with face_data := some bigSample }] := by
  constructor
  · decide
  · decide

/-- C6 (amended): when step 1 was never completed for this username in
this session (the session holds no pending registration, or one for a
different username) and no existing account has this username, step 2
leaves the store and session untouched and redirects the client to
restart (the login flow, or the capture page when the sample fails the
size check). -/
theorem enroll_without_step1_unknown_user (store : List Account)
    (sess : Session) (username face_data : String) (c u : Bool)
    (hreg : ∀ rd, sess.registration_data = some rd →
      rd.username ≠ pyStrip username)
    (hacct : store.find? (fun a => a.username == pyStrip username) = none) :
    (save_reference_face store sess username face_data c u).1 = store ∧
    (save_reference_face store sess username face_data c u).2.1 = sess ∧
    ((save_reference_face store sess username face_data c u).2.2 =
        .redirect .login ∨
     (save_reference_face store sess username face_data c u).2.2 =
        .redirect .face_scan) := by
  by_cases hsz : face_data = "" ∨ face_data.length < 100
  · simp [save_reference_face, hsz]
  · cases hrd : sess.registration_data with
    | none => simp [save_reference_face, hsz, hrd, hacct]
    | some rd =>
        have hnm : ¬ rd.username = pyStrip username := hreg rd hrd
        simp [save_reference_face, hsz, hrd, hnm, hacct]

/-- Concrete witness for `enroll_without_step1_unknown_user`: the
session is mid-registration for carol, the enrollment is posted for
eve, and eve has no account. -/
theorem enroll_without_step1_unknown_user_witness :
    (save_reference_face [] sessRegCarol "eve" bigSample true true).1 = [] ∧
    (save_reference_face [] sessRegCarol "eve" bigSample true true).2.1 =
      sessRegCarol ∧
    ((save_reference_face [] sessRegCarol "eve" bigSample true true).2.2 =
        .redirect .login ∨
     (save_reference_face [] sessRegCarol "eve" bigSample true true).2.2 =
        .redirect .face_scan) :=
  enroll_without_step1_unknown_user [] sessRegCarol "eve" bigSample true true
    (fun rd h => by
      simp [sessRegCarol, Session.empty] at h
      subst h
      decide)
    (by decide)

/-- After overwriting the password of the first account with this
username, no account matches (username, old password), provided
usernames are pairwise distinct and the passwords differ. -/
lemma find_old_password_after_reset (store : List Account)
    (un oldp newp : String)
    (hwf : store.Pairwise (fun a b => a.username ≠ b.username))
    (hne : oldp ≠ newp) :
    (set_password_first store un newp).find?
      (fun u => u.username == un && u.password == oldp) = none := by
  induction store with
  | nil => rfl
  | cons a rest ih =>
      rw [List.pairwise_cons] at hwf
      by_cases ha : a.username = un
      · have hrest : rest.find?
            (fun u => u.username == un && u.password == oldp) = none := by
          rw [List.find?_eq_none]
          intro u hu
          have : a.username ≠ u.username := hwf.1 u hu
          simp only [Bool.and_eq_true, beq_iff_eq, not_and]
          intro h1
          exact absurd (ha.trans h1.symm) this
        simp [set_password_first, ha, List.find?_cons, hne, Ne.symm hne, hrest]
      · have := ih hwf.2
        simp [set_password_first, ha, List.find?_cons, this]

/-- After overwriting the password of the first account with this
username, the lookup by (username, new password) returns exactly that
account with its new password. -/
lemma find_new_password_after_reset (store : List Account)
    (un newp : String) (acct : Account)
    (hfind : store.find? (fun u => u.username == un) = some acct) :
    (set_password_first store un newp).find?
      (fun u => u.username == un && u.password == newp) =
      some { acct with password := newp } := by
  induction store with
  | nil => cases hfind
  | cons a rest ih =>
      by_cases ha : a.username = un
      · have hacct : a = acct := by
          simp [List.find?_cons, ha] at hfind
          exact hfind
        subst hacct
        simp [set_password_first, ha, List.find?_cons]
      · have hfind2 : rest.find? (fun u => u.username == un) = some acct := by
          simpa [List.find?_cons, ha] using hfind
        simp [set_password_first, ha, List.find?_cons, ih hfind2]

/-- C9: for an existing account, a reset complete with an approved
verdict overwrites the stored secret and reports success, after which a
password login with the old secret is rejected and one with the new
secret is authenticated; a non-approved verdict leaves the store
unchanged and redirects back to the same reset page. -/
theorem reset_password_updates_secret (store : List Account)
    (sessOld sessNew : Session)
    (username code1 code2 oldp newp s : String) (acct : Account)
    (hwf : store.Pairwise (fun a b => a.username ≠ b.username))
    (hfind : store.find? (fun u => u.username == pyStrip username) = some acct)
    (hne : oldp ≠ newp)
    (hs : s ≠ "approved") :
    reset_password_post store username code1 newp (.ok "approved") =
      (set_password_first store (pyStrip username) newp,
       .page ("Password reset successful for user \"" ++ pyStrip username
              ++ "\". You can now log in.") false) ∧
    login_password_verify (set_password_first store (pyStrip username) newp)
        sessOld username oldp =
      (sessOld, .page "Invalid username or password." true) ∧
    login_password_verify (set_password_first store (pyStrip username) newp)
        sessNew username newp =
      ({ sessNew with logged_in := true, username := some acct.username,
                      login_method := some "Password" },
       .redirect .dashboard) ∧
    reset_password_post store username code2 newp (.ok s) =
      (store, .redirect .reset_password) := by
  refine ⟨?_, ?_, ?_, ?_⟩
  · simp [reset_password_post, hfind]
  · have h1 := find_old_password_after_reset store (pyStrip username) oldp newp
      hwf hne
    simp [login_password_verify, h1]
  · have h2 := find_new_password_after_reset store (pyStrip username) newp acct
      hfind
    simp [login_password_verify, h2]
  · simp [reset_password_post, hfind, hs]

/-- Concrete witness for `reset_password_updates_secret`: alice resets
pw1 to np7 with an approved check; a denied check changes nothing. -/
theorem reset_password_updates_secret_witness :
    reset_password_post [alice] "alice" "111111" "np7" (.ok "approved") =
      (set_password_first [alice] (pyStrip "alice") "np7",
       .page ("Password reset successful for user \"" ++ pyStrip "alice"
              ++ "\". You can now log in.") false) ∧
    login_password_verify (set_password_first [alice] (pyStrip "alice") "np7")
        Session.empty "alice" "pw1" =
      (Session.empty, .page "Invalid username or password." true) ∧
    login_password_verify (set_password_first [alice] (pyStrip "alice") "np7")
        Session.empty "alice" "np7" =
      ({ Session.empty with logged_in := true, username := some alice.username,
                            login_method := some "Password" },
       .redirect .dashboard) ∧
    reset_password_post [alice] "alice" "222222" "np7" (.ok "denied") =
      ([alice], .redirect .reset_password) :=
  reset_password_updates_secret [alice] Session.empty Session.empty "alice"
    "111111" "222222" "pw1" "np7" "denied" alice (by simp) (by decide)
    (by decide) (by decide)

/-- Registration step 1 never touches the login flag. -/
lemma register_post_preserves_login (store : List Account) (sess : Session)
    (u p e ph : String) :
    (register_post store sess u p e ph).1.logged_in = sess.logged_in := by
  simp only [register_post]
  repeat' split
  all_goals rfl

/-- Registration step 2 never touches the login flag. -/
lemma save_reference_face_preserves_login (store : List Account)
    (sess : Session) (u fd : String) (c upd : Bool) :
    (save_reference_face store sess u fd c upd).2.1.logged_in =
      sess.logged_in := by
  simp only [save_reference_face]
  repeat' split
  all_goals rfl

/-- OTP initiate never touches the login flag. -/
lemma login_otp_send_preserves_login (store : List Account) (sess : Session)
    (u ph : String) (gw : TwilioResult) :
    (login_otp_send store sess u ph gw).1.logged_in = sess.logged_in := by
  simp only [login_otp_send]
  repeat' split
  all_goals rfl

/-- The dashboard leaves a logged-out session untouched. -/
lemma dashboard_preserves_not_login (store : List Account) (sess : Session)
    (h : sess.logged_in = false) :
    (dashboard store sess).1 = sess := by
  simp [dashboard, h]

/-- Logout always leaves the login flag cleared. -/
lemma logout_not_logged_in (sess : Session) :
    (logout sess).1.logged_in = false := rfl

/-- If password verification leaves the login flag set, either it was
already set or the (username, password) lookup succeeded. -/
lemma login_password_verify_login_source (store : List Account)
    (sess : Session) (u p : String)
    (h : (login_password_verify store sess u p).1.logged_in = true) :
    sess.logged_in = true ∨
    ∃ acct,
      store.find? (fun a => a.username == pyStrip u && a.password == p) =
        some acct := by
  rcases hf : store.find?
      (fun a => a.username == pyStrip u && a.password == p) with _ | acct
  · left
    simpa [login_password_verify, hf] using h
  · exact Or.inr ⟨acct, hf⟩

/-- If OTP verification leaves the login flag set, either it was
already set or the account exists, the pending challenge matched and
the check verdict was approved. -/
lemma login_otp_verify_post_login_source (store : List Account)
    (sess : Session) (u c : String) (gw : TwilioResult)
    (h : (login_otp_verify_post store sess u c gw).1.logged_in = true) :
    sess.logged_in = true ∨
    (gw = .ok "approved" ∧
     (∃ acct, store.find? (fun a => a.username == pyStrip u) = some acct) ∧
     sess.otp_login_pending = some (pyStrip u)) := by
  rcases hf : store.find? (fun a => a.username == pyStrip u) with _ | acct
  · left
    simpa [login_otp_verify_post, hf] using h
  · by_cases hp : sess.otp_login_pending = some (pyStrip u)
    · cases gw with
      | ok s =>
          by_cases hs : s = "approved"
          · subst hs
            exact Or.inr ⟨rfl, ⟨acct, hf⟩, hp⟩
          · left
            simpa [login_otp_verify_post, hf, hp, hs] using h
      | exn e =>
          left
          simpa [login_otp_verify_post, hf, hp] using h
    · left
      simpa [login_otp_verify_post, hf, hp] using h

/-- If face verification leaves the login flag set, either it was
already set or the account exists with a truthy reference and the
matcher accepted the sample. -/
lemma login_face_verify_login_source (store : List Account) (sess : Session)
    (u cap : String)
    (h : (login_face_verify store sess u cap).1.logged_in = true) :
    sess.logged_in = true ∨
    ∃ acct, store.find? (fun a => a.username == pyStrip u) = some acct ∧
      pyTruthy acct.face_data = true ∧
      mock_verify_face acct.face_data cap = true := by
  rcases hf : store.find? (fun a => a.username == pyStrip u) with _ | acct
  · left
    simpa [login_face_verify, hf] using h
  · by_cases ht : pyTruthy acct.face_data = true
    · by_cases hm : mock_verify_face acct.face_data cap = true
      · exact Or.inr ⟨acct, hf, ht, hm⟩
      · left
        simpa [login_face_verify, hf, ht, hm] using h
    · left
      simpa [login_face_verify, hf, ht] using h

/-- C1: in any reachable transition that turns a logged-out session
into a logged-in one, the request was exactly one of the three factor
completions and its success condition held: a password lookup match, an
approved OTP check with the pending challenge bound to this session, or
a positive biometric matcher verdict on an enrolled account.  No other
operation establishes a session. -/
theorem session_established_only_by_verification (st : AppState) (op : Op)
    (h0 : st.sess.logged_in = false)
    (h1 : ((step st op).1).sess.logged_in = true) :
    (∃ u p acct, op = .opPasswordVerify u p ∧
       st.store.find? (fun a => a.username == pyStrip u && a.password == p) =
         some acct) ∨
    (∃ u c acct, op = .opOtpVerify u c (.ok "approved") ∧
       st.store.find? (fun a => a.username == pyStrip u) = some acct ∧
       st.sess.otp_login_pending = some (pyStrip u)) ∨
    (∃ u cap acct, op = .opFaceVerify u cap ∧
       st.store.find? (fun a => a.username == pyStrip u) = some acct ∧
       pyTruthy acct.face_data = true ∧
       mock_verify_face acct.face_data cap = true) := by
  cases op with
  | opRegister u p e ph =>
      simp only [step] at h1
      rw [register_post_preserves_login, h0] at h1
      exact absurd h1 (by decide)
  | opSaveReferenceFace u fd c upd =>
      simp only [step] at h1
      rw [save_reference_face_preserves_login, h0] at h1
      exact absurd h1 (by decide)
  | opPasswordVerify u p =>
      simp only [step] at h1
      rcases login_password_verify_login_source st.store st.sess u p h1 with
        h | ⟨acct, hf⟩
      · rw [h0] at h
        exact absurd h (by decide)
      · exact Or.inl ⟨u, p, acct, rfl, hf⟩
  | opOtpSend u ph gw =>
      simp only [step] at h1
      rw [login_otp_send_preserves_login, h0] at h1
      exact absurd h1 (by decide)
  | opOtpVerify u c gw =>
      simp only [step] at h1
      rcases login_otp_verify_post_login_source st.store st.sess u c gw h1 with
        h | ⟨hgw, ⟨acct, hf⟩, hp⟩
      · rw [h0] at h
        exact absurd h (by decide)
      · subst hgw
        exact Or.inr (Or.inl ⟨u, c, acct, rfl, hf, hp⟩)
  | opFaceVerify u cap =>
      simp only [step] at h1
      rcases login_face_verify_login_source st.store st.sess u cap h1 with
        h | ⟨acct, hf, ht, hm⟩
      · rw [h0] at h
        exact absurd h (by decide)
      · exact Or.inr (Or.inr ⟨u, cap, acct, rfl, hf, ht, hm⟩)
  | opDashboard =>
      simp only [step] at h1
      rw [dashboard_preserves_not_login st.store st.sess h0, h0] at h1
      exact absurd h1 (by decide)
  | opLogout =>
      simp only [step] at h1
      rw [logout_not_logged_in] at h1
      exact absurd h1 (by decide)
  | opResendOtp u nr gw =>
      simp only [step] at h1
      rw [h0] at h1
      exact absurd h1 (by decide)
  | opForgotPassword u ph gw =>
      simp only [step] at h1
      rw [h0] at h1
      exact absurd h1 (by decide)
  | opResetPassword u c np gw =>
      simp only [step] at h1
      rw [h0] at h1
      exact absurd h1 (by decide)

/-- Concrete witness for `session_established_only_by_verification`:
starting logged out with alice in the store, a password login request
that does log in is classified as a successful password verification. -/
theorem session_established_only_by_verification_witness :
    (∃ u p acct, Op.opPasswordVerify "alice" "pw1" = .opPasswordVerify u p ∧
       (AppState.mk [alice] Session.empty).store.find?
         (fun a => a.username == pyStrip u && a.password == p) = some acct) ∨
    (∃ u c acct, Op.opPasswordVerify "alice" "pw1" = .opOtpVerify u c (.ok "approved") ∧
       (AppState.mk [alice] Session.empty).store.find?
         (fun a => a.username == pyStrip u) = some acct ∧
       (AppState.mk [alice] Session.empty).sess.otp_login_pending =
         some (pyStrip u)) ∨
    (∃ u cap acct, Op.opPasswordVerify "alice" "pw1" = .opFaceVerify u cap ∧
       (AppState.mk [alice] Session.empty).store.find?
         (fun a => a.username == pyStrip u) = some acct ∧
       pyTruthy acct.face_data = true ∧
       mock_verify_face acct.face_data cap = true) :=
  session_established_only_by_verification ⟨[alice], Session.empty⟩
    (.opPasswordVerify "alice" "pw1") rfl (by decide)

end MfaApp
